import Mathlib

/-!
Shallow embedding of the OLX Monitor service worker
(`src/static/service_worker.js`) and proofs about its five event handlers:
install, activate, fetch, push, and notificationclick.

Platform primitives (Cache.addAll, caches.delete, clients.matchAll, the
service-worker lifecycle) are modelled by their standard contracts; the
handler bodies themselves are translated line by line from the source.
-/

namespace OlxMonitor

/-- Source line 4: `const CACHE_NAME = 'olx-monitor-v1';` -/
def CACHE_NAME : String := "olx-monitor-v1"

/-- Source lines 7-12: the fixed list of resources cached at install. -/
def urlsToCache : List String :=
  ["/", "/static/icon-192.png", "/static/icon-512.png", "/static/manifest.json"]

/-- JavaScript `a || b` for an optional string `a`: the default is taken when
`a` is absent (undefined) or falsy, and for strings the only falsy value is
the empty string. -/
def jsOr (v : Option String) (d : String) : String :=
  match v with
  | none => d
  | some s => if s = "" then d else s

/-! ## Install handler (source lines 15-21) -/

/-- The named-cache store: each cache name maps to the list of request URLs
stored in it (`none` means no cache of that name exists). -/
def CacheStorage : Type := String → Option (List String)

/-- A store with no named caches. -/
def emptyStorage : CacheStorage := fun _ => none

/-- Platform `caches.open(n)`: creates an empty cache named `n` when missing,
otherwise leaves the store unchanged (modulo making the entry present). -/
def openCache (s : CacheStorage) (n : String) : CacheStorage :=
  fun m => if m = n then some ((s n).getD []) else s m

/-- Platform `cache.addAll(urls)` on the cache named `n`, per its contract:
fetch every URL and store the responses as one atomic batch. If every fetch
(and store) succeeds the whole batch is stored; if any fails, the returned
promise rejects and nothing is stored. `fetchOk u` is the outcome of
fetching/storing resource `u`. -/
def addAll (fetchOk : String → Bool) (s : CacheStorage) (n : String)
    (urls : List String) : Option CacheStorage :=
  if urls.all fetchOk then
    some (fun m =>
      if m = n then
        some ((((s n).getD []).filter (fun u => !(urls.contains u))) ++ urls)
      else s m)
  else
    none

/-- Outcome of one install run: the resulting cache store, whether the
`waitUntil` promise resolved (install succeeded; on failure the platform
discards the new worker version), and whether `skipWaiting` was called. -/
structure InstallResult where
  cacheState : CacheStorage
  succeeded : Bool
  skipWaitingCalled : Bool

/-- Source lines 15-21: `caches.open(CACHE_NAME).then(cache =>
cache.addAll(urlsToCache))` is passed to `event.waitUntil`;
`self.skipWaiting()` is called unconditionally. -/
def installRun (fetchOk : String → Bool) (s : CacheStorage) : InstallResult :=
  let s1 := openCache s CACHE_NAME
  match addAll fetchOk s1 CACHE_NAME urlsToCache with
  | some s2 => { cacheState := s2, succeeded := true, skipWaitingCalled := true }
  | none => { cacheState := s1, succeeded := false, skipWaitingCalled := true }

/-! ## Activate handler (source lines 24-37) -/

/-- Outcome of one activate run over the existing cache names
(`caches.keys()`): the names still present afterwards, whether the
`Promise.all` of the deletions resolved, whether `clients.claim()` was
called, and whether the worker reached the activated state. Per the
service-worker lifecycle, a rejected `waitUntil` promise during activation
does not revoke activation, so `activated` is always true. -/
structure ActivateResult where
  remaining : List String
  cleanupResolved : Bool
  claimCalled : Bool
  activated : Bool

/-- Source lines 24-37: every name different from `CACHE_NAME` gets a
`caches.delete` call; all deletions are initiated by the `map`, so each is
independent of the others. `delOk n` is the outcome of deleting cache `n`:
a name survives if it is the current cache or its deletion failed. -/
def activateRun (delOk : String → Bool) (names : List String) : ActivateResult :=
  { remaining := names.filter (fun n => n == CACHE_NAME || !(delOk n))
    cleanupResolved := names.all (fun n => n == CACHE_NAME || delOk n)
    claimCalled := true
    activated := true }

/-! ## Fetch handler (source lines 40-50) -/

/-- A response as observed by the page: status, status text, body. -/
structure Response where
  status : Nat
  statusText : String
  body : String
deriving DecidableEq, Repr

/-- Source lines 44-47: the fixed response built when the network fetch
rejects. -/
def fallbackResponse : Response :=
  { status := 503, statusText := "Service Unavailable"
    body := "Offline - conecte à internet" }

/-- Source lines 40-50: the handler performs exactly one network attempt
(`net 0`; later entries of `net` model outcomes a retry would have seen) and
never touches the cache store, which is threaded through unchanged. -/
def fetchHandler (net : Nat → Option Response) (s : CacheStorage) :
    Response × CacheStorage :=
  (match net 0 with
   | some r => r
   | none => fallbackResponse, s)

/-! ## Push handler (source lines 53-82) -/

/-- The JSON payload shape `{title?, body?, icon?, image?, tag?, url?, adId?}`;
each field is an optional string. -/
structure PushData where
  title : Option String
  body : Option String
  icon : Option String
  image : Option String
  tag : Option String
  url : Option String
  adId : Option String
deriving DecidableEq, Repr

/-- The data attached to a push event: absent (`event.data` null), present
but failing to parse as JSON (`event.data.json()` throws), or parsed. -/
inductive PushEventData where
  | noData : PushEventData
  | malformed : PushEventData
  | parsed : PushData → PushEventData
deriving DecidableEq, Repr

/-- One entry of the notification's `actions` array. -/
structure NotificationAction where
  action : String
  title : String
deriving DecidableEq, Repr

/-- The options object built at source lines 59-74. -/
structure NotificationOptions where
  body : String
  icon : String
  badge : String
  image : Option String
  tag : String
  requireInteraction : Bool
  dataUrl : Option String
  dataAdId : Option String
  actions : List NotificationAction
deriving DecidableEq, Repr

/-- Source lines 59-74 plus the title argument of line 77: the notification
(title, options) built from a successfully parsed payload. -/
def buildNotification (d : PushData) : String × NotificationOptions :=
  (jsOr d.title "OLX Monitor",
   { body := jsOr d.body "Alerta de preço!"
     icon := jsOr d.icon "/static/icon-192.png"
     badge := "/static/icon-192.png"
     image := d.image
     tag := jsOr d.tag "price-alert"
     requireInteraction := true
     dataUrl := d.url
     dataAdId := d.adId
     actions := [⟨"open", "Ver anúncio"⟩, ⟨"dismiss", "Dispensar"⟩] })

/-- Source lines 53-82: no data means an early return; a parse failure is
caught (and logged) so no notification is shown; otherwise the notification
is shown. The result is the notification displayed, if any; the handler is a
total function, so it never throws. -/
def pushHandler : PushEventData → Option (String × NotificationOptions)
  | PushEventData.noData => none
  | PushEventData.malformed => none
  | PushEventData.parsed d => some (buildNotification d)

/-! ## Notificationclick handler (source lines 85-109) -/

/-- A window client as enumerated by `clients.matchAll`: its current URL and
whether it exposes a `focus` capability (`'focus' in client`). -/
structure WindowClient where
  url : String
  canFocus : Bool
deriving DecidableEq, Repr

/-- The platform environment of one click event: the enumerated window
clients, in order, and whether `clients.openWindow` is available. -/
structure ClickEnv where
  windows : List WindowClient
  openWindowSupported : Bool
deriving DecidableEq, Repr

/-- The observable effects of one notificationclick run: whether the
notification was closed, which window client was focused (if any), and the
URL a new window was opened at (if any). -/
structure ClickOutcome where
  closed : Bool
  focused : Option WindowClient
  opened : Option String
deriving DecidableEq, Repr

/-- Source line 92: `event.notification.data?.url || '/'`. -/
def targetUrl (dataUrl : Option String) : String :=
  jsOr dataUrl "/"

/-- Source lines 85-109: close the notification, stop on `dismiss`, else
focus the first enumerated window whose URL equals the target and which has
a `focus` capability; when none matches, open a new window at the target if
`clients.openWindow` exists, and otherwise do nothing. `action` is the
event's action string (empty for a body click), `dataUrl` the notification's
`data.url`. -/
def notificationClick (action : String) (dataUrl : Option String)
    (env : ClickEnv) : ClickOutcome :=
  if action = "dismiss" then
    { closed := true, focused := none, opened := none }
  else
    let url := targetUrl dataUrl
    match env.windows.find? (fun c => c.url == url && c.canFocus) with
    | some c => { closed := true, focused := some c, opened := none }
    | none =>
      if env.openWindowSupported then
        { closed := true, focused := none, opened := some url }
      else
        { closed := true, focused := none, opened := none }

/-- Payload used to exhibit the empty-string edge of the push defaults. -/
def emptyTitlePayload : PushData :=
  { title := some "", body := none, icon := none, image := none
    tag := none, url := none, adId := none }

/-- Payload with every field absent. -/
def emptyPayload : PushData :=
  { title := none, body := none, icon := none, image := none
    tag := none, url := none, adId := none }

/-!  ## Theorems -/

/-- C4: for every mediated fetch request, a resolving network fetch is
returned unmodified, a rejecting one yields the fixed 503
"Service Unavailable" / "Offline - conecte à internet" response, the cache
store is neither read nor written (it is returned unchanged and the response
never depends on it), and there is no retry (the result depends only on the
first network attempt). -/
theorem fetch_passthrough_or_fallback (net : Nat → Option Response)
    (s : CacheStorage) :
    (∀ r, net 0 = some r → (fetchHandler net s).1 = r) ∧
    (net 0 = none → (fetchHandler net s).1 =
      { status := 503, statusText := "Service Unavailable"
        body := "Offline - conecte à internet" }) ∧
    (fetchHandler net s).2 = s ∧
    (∀ s2 : CacheStorage, (fetchHandler net s2).1 = (fetchHandler net s).1) ∧
    (∀ net2 : Nat → Option Response, net2 0 = net 0 →
      fetchHandler net2 s = fetchHandler net s) := by
  refine ⟨?_, ?_, rfl, fun s2 => rfl, ?_⟩
  · intro r h
    simp [fetchHandler, h]
  · intro h
    simp [fetchHandler, h, fallbackResponse]
  · intro net2 h
    simp [fetchHandler, h]

/-- C4 witness: at a network outcome that rejects, the handler returns the
fixed fallback and leaves the empty store unchanged. -/
theorem fetch_passthrough_or_fallback_witness :
    (fetchHandler (fun _ => none) emptyStorage).1 =
      { status := 503, statusText := "Service Unavailable"
        body := "Offline - conecte à internet" } ∧
    (fetchHandler (fun _ => none) emptyStorage).2 = emptyStorage := by
  have h := fetch_passthrough_or_fallback (fun _ => none) emptyStorage
  exact ⟨h.2.1 rfl, h.2.2.1⟩

/-- C5: a push event whose payload is absent, or whose payload fails to
parse as JSON, shows no notification; the handler is a total function of the
event data, so it completes without throwing in both cases. -/
theorem push_no_payload_no_notification :
    pushHandler PushEventData.noData = none ∧
    pushHandler PushEventData.malformed = none :=
  ⟨rfl, rfl⟩

/-- C7: every notification built from a successfully parsed payload has
`requireInteraction` fixed to true and exactly the two actions
`open` ("Ver anúncio") then `dismiss` ("Dispensar"), whatever the payload
contains. -/
theorem push_fixed_interaction_and_actions (d : PushData) :
    ∃ t o, pushHandler (PushEventData.parsed d) = some (t, o) ∧
      o.requireInteraction = true ∧
      o.actions = [⟨"open", "Ver anúncio"⟩, ⟨"dismiss", "Dispensar"⟩] :=
  ⟨(buildNotification d).1, (buildNotification d).2, rfl, rfl, rfl⟩

/-- C8: every notificationclick run closes the notification, regardless of
the action; and when the action is `dismiss` nothing else happens: no window
is focused and none is opened. -/
theorem click_closes_and_dismiss_stops (action : String)
    (dataUrl : Option String) (env : ClickEnv) :
    (notificationClick action dataUrl env).closed = true ∧
    (action = "dismiss" →
      (notificationClick action dataUrl env).focused = none ∧
      (notificationClick action dataUrl env).opened = none) := by
  constructor
  · unfold notificationClick
    by_cases h : action = "dismiss"
    · simp [h]
    · simp only [if_neg h]
      cases hf : (ClickEnv.windows env).find?
          (fun c => c.url == targetUrl dataUrl && c.canFocus) with
      | none => by_cases ho : env.openWindowSupported <;> simp [hf, ho]
      | some c => simp [hf]
  · intro h
    simp [notificationClick, h]

/-- C8 witness: a dismiss click on a concrete environment closes the
notification and does nothing else. -/
theorem click_closes_and_dismiss_stops_witness :
    (notificationClick "dismiss" (some "/a")
      { windows := [{ url := "/a", canFocus := true }]
        openWindowSupported := true }).closed = true ∧
    (notificationClick "dismiss" (some "/a")
      { windows := [{ url := "/a", canFocus := true }]
        openWindowSupported := true }).focused = none ∧
    (notificationClick "dismiss" (some "/a")
      { windows := [{ url := "/a", canFocus := true }]
        openWindowSupported := true }).opened = none := by
  have h := click_closes_and_dismiss_stops "dismiss" (some "/a")
    { windows := [{ url := "/a", canFocus := true }], openWindowSupported := true }
  exact ⟨h.1, (h.2 rfl).1, (h.2 rfl).2⟩

/-- C1: every install run calls `skipWaiting`, and it is all-or-nothing:
either every fetch succeeds, the run succeeds and every one of the four
fixed resources ends up stored in the `olx-monitor-v1` cache, or some fetch
fails, the whole install operation fails (so the new version is not
activated) and nothing gets stored — the store is exactly the pre-install
store with the cache merely opened, and the cache's contents are unchanged. -/
theorem install_all_or_nothing (fetchOk : String → Bool) (s : CacheStorage) :
    (installRun fetchOk s).skipWaitingCalled = true ∧
    ((urlsToCache.all fetchOk = true ∧
        (installRun fetchOk s).succeeded = true ∧
        ∀ u, u ∈ urlsToCache →
          u ∈ (((installRun fetchOk s).cacheState CACHE_NAME).getD [])) ∨
     (urlsToCache.all fetchOk = false ∧
        (installRun fetchOk s).succeeded = false ∧
        (installRun fetchOk s).cacheState = openCache s CACHE_NAME ∧
        ((installRun fetchOk s).cacheState CACHE_NAME).getD [] =
          (s CACHE_NAME).getD [])) := by
  refine ⟨?_, ?_⟩
  · unfold installRun addAll
    cases h : urlsToCache.all fetchOk <;> simp [h]
  · cases h : urlsToCache.all fetchOk with
    | true =>
      refine Or.inl ⟨rfl, ?_, ?_⟩
      · simp [installRun, addAll, h]
      · intro u hu
        simp only [installRun, addAll, h, if_pos]
        simp [List.mem_append, hu]
    | false =>
      refine Or.inr ⟨rfl, ?_, ?_, ?_⟩
      · simp [installRun, addAll, h]
      · simp [installRun, addAll, h]
      · simp [installRun, addAll, h, openCache]

/-- C1 witness: with every fetch succeeding on an empty store, the install
run succeeds and the root document is stored in the current cache. -/
theorem install_all_or_nothing_witness :
    (installRun (fun _ => true) emptyStorage).succeeded = true ∧
    "/" ∈ (((installRun (fun _ => true) emptyStorage).cacheState
      CACHE_NAME).getD []) := by
  rcases install_all_or_nothing (fun _ => true) emptyStorage with ⟨-, h | h⟩
  · exact ⟨h.2.1, h.2.2 "/" (by decide)⟩
  · exact absurd h.1 (by decide)

/-- C2: when every deletion succeeds, activation keeps exactly the caches
named `olx-monitor-v1` (so the current cache is intact and every other cache
is deleted); running it again on the result changes nothing (idempotent);
and the surviving set is independent of the order of the cache names: a
permutation of the input yields a permutation of the result. -/
theorem activate_deletes_exactly_stale (names : List String) :
    (activateRun (fun _ => true) names).remaining =
      names.filter (fun n => n == CACHE_NAME) ∧
    (CACHE_NAME ∈ names →
      CACHE_NAME ∈ (activateRun (fun _ => true) names).remaining) ∧
    (activateRun (fun _ => true)
        ((activateRun (fun _ => true) names).remaining)).remaining =
      (activateRun (fun _ => true) names).remaining ∧
    (∀ names2 : List String, names.Perm names2 →
      ((activateRun (fun _ => true) names).remaining).Perm
        ((activateRun (fun _ => true) names2).remaining)) := by
  have hfilter : ∀ l : List String,
      (activateRun (fun _ => true) l).remaining =
        l.filter (fun n => n == CACHE_NAME) := by
    intro l
    simp [activateRun]
  refine ⟨hfilter names, ?_, ?_, ?_⟩
  · intro h
    rw [hfilter]
    simp [List.mem_filter, h]
  · rw [hfilter, hfilter]
    exact List.filter_eq_self.mpr (fun a ha => (List.mem_filter.mp ha).2)
  · intro names2 hperm
    rw [hfilter, hfilter]
    exact hperm.filter _

/-- C2 witness: on a concrete name set with one stale cache, in either
order, only the current cache survives. -/
theorem activate_deletes_exactly_stale_witness :
    (activateRun (fun _ => true) ["olx-monitor-v1", "olx-monitor-v0"]).remaining =
      ["olx-monitor-v1"] ∧
    ((activateRun (fun _ => true)
        ["olx-monitor-v1", "olx-monitor-v0"]).remaining).Perm
      ((activateRun (fun _ => true)
        ["olx-monitor-v0", "olx-monitor-v1"]).remaining) := by
  have h := activate_deletes_exactly_stale ["olx-monitor-v1", "olx-monitor-v0"]
  refine ⟨?_, h.2.2.2 ["olx-monitor-v0", "olx-monitor-v1"] (by decide)⟩
  rw [h.1]
  decide

/-- C3: when deleting one stale cache fails, the worker still reaches the
activated state and still calls `clients.claim` (the failure is tolerated),
and every other stale cache whose deletion succeeds is still gone — the
failing deletion does not prevent the others. The cleanup promise itself
rejects (`cleanupResolved = false`), which is the only trace of the
failure. -/
theorem activate_tolerates_delete_failure (delOk : String → Bool)
    (names : List String) (b : String) (hb : b ∈ names)
    (hbn : b ≠ CACHE_NAME) (hbf : delOk b = false) :
    (activateRun delOk names).activated = true ∧
    (activateRun delOk names).claimCalled = true ∧
    (activateRun delOk names).cleanupResolved = false ∧
    (∀ n, n ∈ names → n ≠ CACHE_NAME → delOk n = true →
      n ∉ (activateRun delOk names).remaining) := by
  refine ⟨rfl, rfl, ?_, ?_⟩
  · have : ¬ names.all (fun n => n == CACHE_NAME || delOk n) = true := by
      intro hall
      have := List.all_eq_true.mp hall b hb
      rw [hbf] at this
      simp only [Bool.or_false, beq_iff_eq] at this
      exact hbn this
    simpa [activateRun] using this
  · intro n hn hnn hok
    simp only [activateRun, List.mem_filter, not_and]
    intro _
    simp [hok, hnn]

/-- C3 witness: with caches `olx-monitor-v1`, `bad` (whose deletion fails)
and `good` (whose deletion succeeds), activation still completes and `good`
is still deleted. -/
theorem activate_tolerates_delete_failure_witness :
    (activateRun (fun n => n == "good")
      ["olx-monitor-v1", "bad", "good"]).activated = true ∧
    "good" ∉ (activateRun (fun n => n == "good")
      ["olx-monitor-v1", "bad", "good"]).remaining := by
  have h := activate_tolerates_delete_failure (fun n => n == "good")
    ["olx-monitor-v1", "bad", "good"] "bad" (by decide) (by decide) (by decide)
  exact ⟨h.1, h.2.2.2 "good" (by decide) (by decide) (by decide)⟩

/-- C6 counterexample: a payload whose `title` field is present with the
empty string is not used as given — the built notification's title is the
default "OLX Monitor", not "". JavaScript `data.title || 'OLX Monitor'`
falls back on every falsy value, not only on absent ones. -/
theorem push_present_field_not_used_counterexample :
    emptyTitlePayload.title = some "" ∧
    (pushHandler (PushEventData.parsed emptyTitlePayload)).map Prod.fst =
      some "OLX Monitor" ∧
    ("OLX Monitor" : String) ≠ "" := by
  refine ⟨rfl, rfl, by decide⟩

/-- C6 amended: for every successfully parsed payload, a `title`, `body`,
`icon` or `tag` field that is absent or is the empty string falls back to
its fixed default ("OLX Monitor", "Alerta de preço!", "/static/icon-192.png",
"price-alert" respectively), and a field present with a non-empty value is
used as given. -/
theorem push_field_defaults (d : PushData) :
    ∃ t o, pushHandler (PushEventData.parsed d) = some (t, o) ∧
      ((d.title = none ∨ d.title = some "") → t = "OLX Monitor") ∧
      (∀ v, d.title = some v → v ≠ "" → t = v) ∧
      ((d.body = none ∨ d.body = some "") → o.body = "Alerta de preço!") ∧
      (∀ v, d.body = some v → v ≠ "" → o.body = v) ∧
      ((d.icon = none ∨ d.icon = some "") → o.icon = "/static/icon-192.png") ∧
      (∀ v, d.icon = some v → v ≠ "" → o.icon = v) ∧
      ((d.tag = none ∨ d.tag = some "") → o.tag = "price-alert") ∧
      (∀ v, d.tag = some v → v ≠ "" → o.tag = v) := by
  have hcase : ∀ (f : Option String) (dflt : String),
      ((f = none ∨ f = some "") → jsOr f dflt = dflt) ∧
      (∀ v, f = some v → v ≠ "" → jsOr f dflt = v) := by
    intro f dflt
    constructor
    · rintro (h | h) <;> simp [h, jsOr]
    · intro v hv hne
      simp [hv, jsOr, hne]
  refine ⟨(buildNotification d).1, (buildNotification d).2, rfl, ?_, ?_, ?_,
    ?_, ?_, ?_, ?_, ?_⟩
  · exact (hcase d.title "OLX Monitor").1
  · exact (hcase d.title "OLX Monitor").2
  · exact (hcase d.body "Alerta de preço!").1
  · exact (hcase d.body "Alerta de preço!").2
  · exact (hcase d.icon "/static/icon-192.png").1
  · exact (hcase d.icon "/static/icon-192.png").2
  · exact (hcase d.tag "price-alert").1
  · exact (hcase d.tag "price-alert").2

/-- C6 witness: at the payload with every field absent, the built title is
the default. -/
theorem push_field_defaults_witness :
    ∃ t o, pushHandler (PushEventData.parsed emptyPayload) = some (t, o) ∧
      t = "OLX Monitor" := by
  obtain ⟨t, o, h, h1, -⟩ := push_field_defaults emptyPayload
  exact ⟨t, o, h, h1 (Or.inl rfl)⟩

/-- C9 counterexample: with the click target `/x` and a single enumerated
window whose URL is exactly `/x` but which has no `focus` capability, the
handler does not focus that window and opens a new one at `/x` — yet the
claim says an exact-URL match is focused and no new window is opened. -/
theorem click_exact_match_counterexample :
    (WindowClient.mk "/x" false).url = targetUrl (some "/x") ∧
    (WindowClient.mk "/x" false) ∈
      (ClickEnv.mk [WindowClient.mk "/x" false] true).windows ∧
    notificationClick "" (some "/x")
        (ClickEnv.mk [WindowClient.mk "/x" false] true) =
      { closed := true, focused := none, opened := some "/x" } := by
  refine ⟨by decide, by decide, by decide⟩

/-- C9 amended: for every notificationclick whose action is not `dismiss`,
the target URL is `data.url` when present and non-empty, and `/` when absent
or empty; if some enumerated window has both that exact URL and a focus
capability, one such window (the first) is focused and no window is opened;
if no window matches on both counts, none is focused and a new window is
opened at the target exactly when the platform supports opening windows,
silently doing nothing otherwise. The notification is closed in every
case. -/
theorem click_open_routing (action : String) (dataUrl : Option String)
    (env : ClickEnv) (h : action ≠ "dismiss") :
    (notificationClick action dataUrl env).closed = true ∧
    ((dataUrl = none ∨ dataUrl = some "") → targetUrl dataUrl = "/") ∧
    (∀ v, dataUrl = some v → v ≠ "" → targetUrl dataUrl = v) ∧
    ((∃ c ∈ env.windows, c.url = targetUrl dataUrl ∧ c.canFocus = true) →
      ∃ c ∈ env.windows, c.url = targetUrl dataUrl ∧ c.canFocus = true ∧
        (notificationClick action dataUrl env).focused = some c ∧
        (notificationClick action dataUrl env).opened = none) ∧
    ((∀ c ∈ env.windows, ¬(c.url = targetUrl dataUrl ∧ c.canFocus = true)) →
      (notificationClick action dataUrl env).focused = none ∧
      (env.openWindowSupported = true →
        (notificationClick action dataUrl env).opened =
          some (targetUrl dataUrl)) ∧
      (env.openWindowSupported = false →
        (notificationClick action dataUrl env).opened = none)) := by
  refine ⟨(click_closes_and_dismiss_stops action dataUrl env).1, ?_, ?_, ?_, ?_⟩
  · rintro (hu | hu) <;> simp [hu, targetUrl, jsOr]
  · intro v hv hne
    simp [hv, targetUrl, jsOr, hne]
  · intro ⟨c, hc, hurl, hfoc⟩
    have hsome : ((env.windows).find?
        (fun w => w.url == targetUrl dataUrl && w.canFocus)).isSome := by
      rw [List.find?_isSome]
      exact ⟨c, hc, by simp [hurl, hfoc]⟩
    obtain ⟨c2, hc2⟩ := Option.isSome_iff_exists.mp hsome
    have hmem := List.mem_of_find?_eq_some hc2
    have hpred := List.find?_some hc2
    simp only [Bool.and_eq_true, beq_iff_eq] at hpred
    refine ⟨c2, hmem, hpred.1, hpred.2, ?_, ?_⟩ <;>
      simp [notificationClick, if_neg h, hc2]
  · intro hnone
    have hfind : (env.windows).find?
        (fun w => w.url == targetUrl dataUrl && w.canFocus) = none := by
      rw [List.find?_eq_none]
      intro w hw
      have := hnone w hw
      simp only [Bool.and_eq_true, beq_iff_eq]
      intro ⟨h1, h2⟩
      exact this ⟨h1, h2⟩
    refine ⟨?_, ?_, ?_⟩
    · by_cases ho : env.openWindowSupported <;>
        simp [notificationClick, if_neg h, hfind, ho]
    · intro hsup
      simp [notificationClick, if_neg h, hfind, hsup]
    · intro hsup
      simp [notificationClick, if_neg h, hfind, hsup]

/-- C9 witness: a body click with no `data.url` and no open windows, on a
platform that supports opening windows, opens a new window at `/`. -/
theorem click_open_routing_witness :
    (notificationClick "" none (ClickEnv.mk [] true)).focused = none ∧
    (notificationClick "" none (ClickEnv.mk [] true)).opened =
      some (targetUrl none) := by
  have h := click_open_routing "" none (ClickEnv.mk [] true) (by decide)
  have h2 := h.2.2.2.2 (by intro c hc; simp at hc)
  exact ⟨h2.1, (h2.2.1) rfl⟩

/-- C10: a window matching the target URL exactly but lacking a focus
capability is skipped: it is never the focused window, the search simply
moves past it (dropping such a window from the head of the list leaves the
outcome unchanged), and when no window matches on URL and focusability
together — even though an exact-URL match may be present — no window is
focused and a new window is opened at the target when the platform supports
it. -/
theorem click_skips_unfocusable_match (action : String)
    (dataUrl : Option String) (env : ClickEnv) (h : action ≠ "dismiss") :
    (∀ w, w ∈ env.windows → w.canFocus = false →
      (notificationClick action dataUrl env).focused ≠ some w) ∧
    (∀ w rest, env.windows = w :: rest → w.canFocus = false →
      notificationClick action dataUrl env =
        notificationClick action dataUrl
          (ClickEnv.mk rest env.openWindowSupported)) ∧
    ((∀ w ∈ env.windows, ¬(w.url = targetUrl dataUrl ∧ w.canFocus = true)) →
      (notificationClick action dataUrl env).focused = none ∧
      (env.openWindowSupported = true →
        (notificationClick action dataUrl env).opened =
          some (targetUrl dataUrl))) := by
  refine ⟨?_, ?_, ?_⟩
  · intro w hw hwf hfoc
    have hres : ∃ c, (env.windows).find?
        (fun c => c.url == targetUrl dataUrl && c.canFocus) = some c ∧
        (notificationClick action dataUrl env).focused = some c := by
      simp only [notificationClick, if_neg h] at hfoc ⊢
      cases hf : (env.windows).find?
          (fun c => c.url == targetUrl dataUrl && c.canFocus) with
      | none =>
        rw [hf] at hfoc
        by_cases ho : env.openWindowSupported <;> simp [ho] at hfoc
      | some c =>
        rw [hf] at hfoc
        simp at hfoc
        exact ⟨c, rfl, by simp [hfoc]⟩
    obtain ⟨c, hc, hceq⟩ := hres
    have hpred := List.find?_some hc
    rw [hfoc] at hceq
    obtain rfl : w = c := by simpa using hceq
    simp only [Bool.and_eq_true] at hpred
    rw [hwf] at hpred
    exact Bool.false_ne_true hpred.2
  · intro w rest hwin hwf
    simp only [notificationClick, if_neg h, hwin]
    rw [List.find?_cons_of_neg]
    simp [hwf]
  · intro hnone
    have h9 := click_open_routing action dataUrl env h
    have h2 := h9.2.2.2.2 hnone
    exact ⟨h2.1, h2.2.1⟩

/-- C10 witness: with a single enumerated window at exactly the target URL
`/x` but without focus capability, nothing is focused and a new window is
opened at `/x`. -/
theorem click_skips_unfocusable_match_witness :
    (notificationClick "" (some "/x")
      (ClickEnv.mk [WindowClient.mk "/x" false] true)).focused ≠
        some (WindowClient.mk "/x" false) ∧
    (notificationClick "" (some "/x")
      (ClickEnv.mk [WindowClient.mk "/x" false] true)).opened =
        some (targetUrl (some "/x")) := by
  have h := click_skips_unfocusable_match "" (some "/x")
    (ClickEnv.mk [WindowClient.mk "/x" false] true) (by decide)
  refine ⟨h.1 (WindowClient.mk "/x" false) (by decide) rfl, ?_⟩
  exact (h.2.2 (by decide)).2 rfl

end OlxMonitor
